import Mathlib

/-!
Verification of the versioned configuration migration engine of `read-frog`.

The configuration document is a JSON object.  A migration step is a pure
function on such documents; the three concrete steps shipped under
`src/utils/config/migration-scripts/` are embedded below, one namespace per
source file.  The surrounding `MigrationRunner` described by the spec is not
part of the source tree we were given, so it is modelled from the spec where
a claim needs it.
-/

/-- A JSON value, as stored in the configuration document.  Numbers are
modelled as integers: every numeric constant written by a migration step in
the source is an integer, and all other numeric values are carried through
untouched. -/
inductive JsonValue where
  | null : JsonValue
  | bool : Bool → JsonValue
  | num : Int → JsonValue
  | str : String → JsonValue
  | arr : List JsonValue → JsonValue
  | obj : List (String × JsonValue) → JsonValue

/-- The top-level configuration document: the field list of a JSON object, in
property order.  A document produced by JavaScript has pairwise-distinct keys;
lookups below always take the first matching key, so no invariant is needed. -/
abbrev Doc := List (String × JsonValue)

/-- First-match association-list lookup of a top-level field. -/
def lookupKey (k : String) : Doc → Option JsonValue
  | [] => none
  | (k₁, v) :: rest => if k₁ = k then some v else lookupKey k rest

/-- The semantics of the JavaScript object literal
`\x7b ...old, k: v \x7d`: every property of `old` in its original order, with
property `k` bound to `v` — replaced in place when `k` is already a property
of `old`, appended at the end otherwise. -/
def setKey : Doc → String → JsonValue → Doc
  | [], k, v => [(k, v)]
  | (k₁, w) :: rest, k, v =>
    if k₁ = k then (k, v) :: rest else (k₁, w) :: setKey rest k v

/-- Lookup of a field of a top-level section: `lookupPath2 s f d` reads
`d[s][f]` when `d[s]` is an object, and is `none` otherwise. -/
def lookupPath2 (s f : String) (d : Doc) : Option JsonValue :=
  match lookupKey s d with
  | some (.obj fields) => lookupKey f fields
  | _ => none

namespace V030ToV031

/-- The `contextMenu` object literal written by
`migration-scripts/v030-to-v031.ts`. -/
def contextMenuDefault : JsonValue :=
  .obj [("translateEnabled", .bool true), ("readEnabled", .bool false)]

/-- `migrate` from `migration-scripts/v030-to-v031.ts`:
`return \x7b ...oldConfig, contextMenu: \x7b translateEnabled: true,
readEnabled: false \x7d \x7d`. -/
def migrate (oldConfig : Doc) : Doc :=
  setKey oldConfig "contextMenu" contextMenuDefault

end V030ToV031

namespace V038ToV039

/-- The `inputTranslation` object literal written by
`migration-scripts/v038-to-v039.ts`. -/
def inputTranslationDefault : JsonValue :=
  .obj [("enabled", .bool true), ("direction", .str "normal"),
        ("timeThreshold", .num 300), ("showToast", .bool true)]

/-- `migrate` from `migration-scripts/v038-to-v039.ts`:
`return \x7b ...oldConfig, inputTranslation: \x7b enabled: true,
direction: 'normal', timeThreshold: 300, showToast: true \x7d \x7d`. -/
def migrate (oldConfig : Doc) : Doc :=
  setKey oldConfig "inputTranslation" inputTranslationDefault

end V038ToV039

namespace V039ToV040

/-- The `inputTranslation` object literal written by
`migration-scripts/v039-to-v040.ts` — textually identical to the one in
`v038-to-v039.ts`. -/
def inputTranslationDefault : JsonValue :=
  .obj [("enabled", .bool true), ("direction", .str "normal"),
        ("timeThreshold", .num 300), ("showToast", .bool true)]

/-- `migrate` from `migration-scripts/v039-to-v040.ts`:
`return \x7b ...oldConfig, inputTranslation: \x7b enabled: true,
direction: 'normal', timeThreshold: 300, showToast: true \x7d \x7d`. -/
def migrate (oldConfig : Doc) : Doc :=
  setKey oldConfig "inputTranslation" inputTranslationDefault

end V039ToV040

/-- The ambient state a JavaScript function body could observe: a clock, the
environment, network reachability and arbitrary extra global state.  None of
the three `migrate` bodies in the source contains any expression reading such
state, so their environment-threaded embeddings below take an `Env` argument
that their bodies (like the source bodies) never consult. -/
structure Env where
  now : Nat
  environmentVariables : List (String × String)
  networkReachable : Bool
  globalState : List (String × JsonValue)

/-- `migrate` of `v030-to-v031.ts` with the ambient state it runs in made
explicit; the body is the object-literal spread of the source, which reads
nothing from `env`. -/
def V030ToV031.migrateInEnv (env : Env) (oldConfig : Doc) : Doc :=
  setKey oldConfig "contextMenu" V030ToV031.contextMenuDefault

/-- `migrate` of `v038-to-v039.ts` with the ambient state made explicit. -/
def V038ToV039.migrateInEnv (env : Env) (oldConfig : Doc) : Doc :=
  setKey oldConfig "inputTranslation" V038ToV039.inputTranslationDefault

/-- `migrate` of `v039-to-v040.ts` with the ambient state made explicit. -/
def V039ToV040.migrateInEnv (env : Env) (oldConfig : Doc) : Doc :=
  setKey oldConfig "inputTranslation" V039ToV040.inputTranslationDefault

/-!
Heap-level embedding of the object-literal spread.  A JavaScript object value
is a reference into a heap; `\x7b ...old, k: v \x7d` reads the fields of the
object at address `old`, allocates a fresh object holding those fields with
`k` rebound, and returns the fresh address, writing nothing through `old`.
The heap holds the top-level document objects; addresses are list indices and
allocation appends.
-/

/-- A heap of top-level document objects, indexed by address. -/
abbrev Heap := List Doc

/-- The heap semantics of `return \x7b ...oldConfig, k: v \x7d`: read the
fields at address `a`, allocate a fresh object with field `k` rebound to `v`,
and return the new heap together with the fresh address. -/
def spreadSetOnHeap (h : Heap) (a : Nat) (k : String) (v : JsonValue) :
    Heap × Nat :=
  (h ++ [setKey (h.getD a []) k v], h.length)

/-- `migrate` of `v030-to-v031.ts` at the heap level. -/
def V030ToV031.migrateOnHeap (h : Heap) (a : Nat) : Heap × Nat :=
  spreadSetOnHeap h a "contextMenu" V030ToV031.contextMenuDefault

/-- `migrate` of `v038-to-v039.ts` at the heap level. -/
def V038ToV039.migrateOnHeap (h : Heap) (a : Nat) : Heap × Nat :=
  spreadSetOnHeap h a "inputTranslation" V038ToV039.inputTranslationDefault

/-- `migrate` of `v039-to-v040.ts` at the heap level. -/
def V039ToV040.migrateOnHeap (h : Heap) (a : Nat) : Heap × Nat :=
  spreadSetOnHeap h a "inputTranslation" V039ToV040.inputTranslationDefault

/-!
The migration engine around the steps.  Only the three concrete step scripts
are in the source tree we verify; the registry, runner and validator exist in
the repository outside it, so they are modelled from the spec (§4) below.
-/

/-- Modelled from the spec: a `MigrationStep` carries its `fromVersion`
(`toVersion = fromVersion + 1`) and a transform that either returns the next
document or raises, which the runner observes as an error value. -/
structure MigrationStep where
  fromVersion : Nat
  transform : Doc → Except String Doc

/-- The `v030-to-v031` script registered as a step: its `migrate` never
throws, so the transform always returns `ok`. -/
def v030Step : MigrationStep :=
  ⟨30, fun d => .ok (V030ToV031.migrate d)⟩

/-- The `v038-to-v039` script registered as a step. -/
def v038Step : MigrationStep :=
  ⟨38, fun d => .ok (V038ToV039.migrate d)⟩

/-- The `v039-to-v040` script registered as a step. -/
def v039Step : MigrationStep :=
  ⟨39, fun d => .ok (V039ToV040.migrate d)⟩

/-- The migration steps present in the source tree. -/
def concreteSteps : List MigrationStep := [v030Step, v038Step, v039Step]

/-- Modelled from the spec: the failure kinds of §7. -/
inductive MigrationError where
  | MissingMigrationStep (atVersion : Nat)
  | FutureVersionDetected (storedVersion latestVersion : Nat)
  | MigrationStepFailed (atVersion : Nat)
  | PostMigrationValidationFailed

/-- Modelled from the spec: `VersionRegistry.latestVersion`, the highest
`toVersion` across all registered steps, or `0` if none is registered. -/
def latestVersion (registry : List MigrationStep) : Nat :=
  registry.foldl (fun acc s => max acc (s.fromVersion + 1)) 0

/-- Modelled from the spec: the registry's step whose `fromVersion` is `v`,
if any. -/
def stepAt (registry : List MigrationStep) (v : Nat) : Option MigrationStep :=
  registry.find? (fun s => s.fromVersion == v)

/-- Modelled from the spec: sequential application of the step at each listed
version, all-or-nothing — a gap aborts with `MissingMigrationStep`, a raising
transform with `MigrationStepFailed`; on success the migrated document is
returned with the ordered list of versions actually applied. -/
def applySteps (registry : List MigrationStep) :
    Doc → List Nat → Except MigrationError (Doc × List Nat)
  | doc, [] => .ok (doc, [])
  | doc, v :: rest =>
    match stepAt registry v with
    | none => .error (.MissingMigrationStep v)
    | some s =>
      match s.transform doc with
      | .error _ => .error (.MigrationStepFailed v)
      | .ok next =>
        match applySteps registry next rest with
        | .error e => .error e
        | .ok (final, applied) => .ok (final, v :: applied)

/-- Modelled from the spec: `MigrationRunner.run` (§4.2).  The store is the
pair of the raw persisted document and its version tag; the validator is the
`SchemaValidator` gate, taken as a parameter.  The result pairs the outcome
with the store contents after the run: the store is written once, on full
success only, and is untouched on every failure. -/
def MigrationRunner.run (registry : List MigrationStep)
    (validate : Doc → Bool) (store : Doc × Nat) :
    Except MigrationError (Doc × List Nat) × (Doc × Nat) :=
  let (raw, storedVersion) := store
  let latest := latestVersion registry
  if latest < storedVersion then
    (.error (.FutureVersionDetected storedVersion latest), store)
  else
    match applySteps registry raw
        (List.range' storedVersion (latest - storedVersion)) with
    | .error e => (.error e, store)
    | .ok (doc, applied) =>
      if validate doc then (.ok (doc, applied), (doc, latest))
      else (.error .PostMigrationValidationFailed, store)

/-- Reading back the key just written: `(setKey d k v)[k] = v`. -/
theorem lookupKey_setKey_self (d : Doc) (k : String) (v : JsonValue) :
    lookupKey k (setKey d k v) = some v := by
  induction d with
  | nil => simp [setKey, lookupKey]
  | cons hd tl ih =>
    obtain ⟨k₁, w⟩ := hd
    by_cases hk : k₁ = k
    · simp [setKey, hk, lookupKey]
    · simp [setKey, hk, lookupKey, ih]

/-- Writing one key leaves the lookup of every other key unchanged. -/
theorem lookupKey_setKey_ne (d : Doc) (j k : String) (v : JsonValue)
    (hjk : j ≠ k) : lookupKey j (setKey d k v) = lookupKey j d := by
  have hkj : ¬k = j := fun h => hjk h.symm
  induction d with
  | nil => simp [setKey, lookupKey, hkj]
  | cons hd tl ih =>
    obtain ⟨k₁, w⟩ := hd
    by_cases hk : k₁ = k
    · subst hk
      simp [setKey, lookupKey, hkj]
    · by_cases hj : k₁ = j
      · simp [setKey, hk, lookupKey, hj, hjk]
      · simp [setKey, hk, lookupKey, hj, ih]

/-- Writing the same key twice keeps only the second write. -/
theorem setKey_setKey_same (d : Doc) (k : String) (v w : JsonValue) :
    setKey (setKey d k v) k w = setKey d k w := by
  induction d with
  | nil => simp [setKey]
  | cons hd tl ih =>
    obtain ⟨k₁, u⟩ := hd
    by_cases hk : k₁ = k
    · simp [setKey, hk]
    · simp [setKey, hk, ih]

/-- Reading a field of the section just written. -/
theorem lookupPath2_setKey_self (d : Doc) (s f : String)
    (fields : List (String × JsonValue)) :
    lookupPath2 s f (setKey d s (.obj fields)) = lookupKey f fields := by
  unfold lookupPath2
  rw [lookupKey_setKey_self]

/-- The fresh-allocation semantics of the spread leaves every existing heap
cell in place: the input object is unchanged, the result lives at a fresh
address, and its content is the input's fields with `k` rebound. -/
theorem spreadSetOnHeap_fresh (h : Heap) (a : Nat) (k : String)
    (v : JsonValue) (ha : a < h.length) :
    (spreadSetOnHeap h a k v).1[a]? = h[a]?
    ∧ (spreadSetOnHeap h a k v).2 ≠ a
    ∧ (spreadSetOnHeap h a k v).1[(spreadSetOnHeap h a k v).2]?
        = some (setKey (h.getD a []) k v) := by
  refine ⟨?_, ?_, ?_⟩
  · show (h ++ [setKey (h.getD a []) k v])[a]? = h[a]?
    rw [List.getElem?_append]
    simp [ha]
  · exact Nat.ne_of_gt ha
  · show (h ++ [setKey (h.getD a []) k v])[h.length]? = _
    rw [List.getElem?_append_right (Nat.le_refl _)]
    simp

/-- C1: for every configuration document and each concrete migration step in
the source, every top-level field other than the section the step introduces
(`contextMenu` for v030-to-v031, `inputTranslation` for v038-to-v039 and
v039-to-v040) is exactly its value in the input document. -/
theorem claim1_steps_frame (d : Doc) (k : String) :
    (k ≠ "contextMenu" →
      lookupKey k (V030ToV031.migrate d) = lookupKey k d)
    ∧ (k ≠ "inputTranslation" →
      lookupKey k (V038ToV039.migrate d) = lookupKey k d
      ∧ lookupKey k (V039ToV040.migrate d) = lookupKey k d) :=
  ⟨fun h => lookupKey_setKey_ne d k "contextMenu"
      V030ToV031.contextMenuDefault h,
   fun h => ⟨lookupKey_setKey_ne d k "inputTranslation"
      V038ToV039.inputTranslationDefault h,
    lookupKey_setKey_ne d k "inputTranslation"
      V039ToV040.inputTranslationDefault h⟩⟩

/-- Witness for C1 at a one-field document and the unrelated key `tts`. -/
theorem claim1_steps_frame_witness :
    lookupKey "tts" (V030ToV031.migrate [("tts", JsonValue.null)])
      = lookupKey "tts" [("tts", JsonValue.null)]
    ∧ lookupKey "tts" (V038ToV039.migrate [("tts", JsonValue.null)])
      = lookupKey "tts" [("tts", JsonValue.null)]
    ∧ lookupKey "tts" (V039ToV040.migrate [("tts", JsonValue.null)])
      = lookupKey "tts" [("tts", JsonValue.null)] :=
  ⟨(claim1_steps_frame [("tts", JsonValue.null)] "tts").1 (by decide),
   ((claim1_steps_frame [("tts", JsonValue.null)] "tts").2 (by decide)).1,
   ((claim1_steps_frame [("tts", JsonValue.null)] "tts").2 (by decide)).2⟩

/-- C2: on any document missing an `inputTranslation` section, the
v038-to-v039 step produces an `inputTranslation` section holding exactly the
four documented defaults: `enabled = true`, `direction = "normal"`,
`timeThreshold = 300`, `showToast = true`. -/
theorem claim2_v038_defaults (d : Doc)
    (hmissing : lookupKey "inputTranslation" d = none) :
    lookupKey "inputTranslation" (V038ToV039.migrate d)
      = some V038ToV039.inputTranslationDefault
    ∧ lookupPath2 "inputTranslation" "enabled" (V038ToV039.migrate d)
      = some (.bool true)
    ∧ lookupPath2 "inputTranslation" "direction" (V038ToV039.migrate d)
      = some (.str "normal")
    ∧ lookupPath2 "inputTranslation" "timeThreshold" (V038ToV039.migrate d)
      = some (.num 300)
    ∧ lookupPath2 "inputTranslation" "showToast" (V038ToV039.migrate d)
      = some (.bool true) :=
  ⟨lookupKey_setKey_self d "inputTranslation"
      V038ToV039.inputTranslationDefault,
   (lookupPath2_setKey_self d "inputTranslation" "enabled" _).trans rfl,
   (lookupPath2_setKey_self d "inputTranslation" "direction" _).trans rfl,
   (lookupPath2_setKey_self d "inputTranslation" "timeThreshold" _).trans rfl,
   (lookupPath2_setKey_self d "inputTranslation" "showToast" _).trans rfl⟩

/-- Witness for C2 at the empty document. -/
theorem claim2_v038_defaults_witness :
    lookupKey "inputTranslation" (V038ToV039.migrate ([] : Doc))
      = some V038ToV039.inputTranslationDefault
    ∧ lookupPath2 "inputTranslation" "timeThreshold"
        (V038ToV039.migrate ([] : Doc)) = some (.num 300) :=
  ⟨(claim2_v038_defaults [] rfl).1, (claim2_v038_defaults [] rfl).2.2.2.1⟩

/-- C3: on any document lacking a `contextMenu` section, the v030-to-v031
step produces a `contextMenu` section with its documented defaults:
`translateEnabled = true`, `readEnabled = false`. -/
theorem claim3_v030_defaults (d : Doc)
    (hmissing : lookupKey "contextMenu" d = none) :
    lookupKey "contextMenu" (V030ToV031.migrate d)
      = some V030ToV031.contextMenuDefault
    ∧ lookupPath2 "contextMenu" "translateEnabled" (V030ToV031.migrate d)
      = some (.bool true)
    ∧ lookupPath2 "contextMenu" "readEnabled" (V030ToV031.migrate d)
      = some (.bool false) :=
  ⟨lookupKey_setKey_self d "contextMenu" V030ToV031.contextMenuDefault,
   (lookupPath2_setKey_self d "contextMenu" "translateEnabled" _).trans rfl,
   (lookupPath2_setKey_self d "contextMenu" "readEnabled" _).trans rfl⟩

/-- Witness for C3 at the empty document. -/
theorem claim3_v030_defaults_witness :
    lookupKey "contextMenu" (V030ToV031.migrate ([] : Doc))
      = some V030ToV031.contextMenuDefault
    ∧ lookupPath2 "contextMenu" "readEnabled" (V030ToV031.migrate ([] : Doc))
      = some (.bool false) :=
  ⟨(claim3_v030_defaults [] rfl).1, (claim3_v030_defaults [] rfl).2.2⟩

/-- The document as it stands after the v038-to-v039 step ran on the empty
document and `inputTranslation.enabled` was then modified to `false`. -/
def modifiedAfterV038 : Doc :=
  [("inputTranslation",
    .obj [("enabled", .bool false), ("direction", .str "normal"),
          ("timeThreshold", .num 300), ("showToast", .bool true)])]

/-- C4 fails on the code: v039-to-v040 is the only later step touching a
section an earlier step introduced (`inputTranslation`, from v038-to-v039),
and it does not leave that section's first field as it stood after the
earlier step — a modified `enabled = false` is reset to `true`. -/
theorem claim4_counterexample :
    V038ToV039.migrate []
      = [("inputTranslation", V038ToV039.inputTranslationDefault)]
    ∧ lookupPath2 "inputTranslation" "enabled" modifiedAfterV038
      = some (.bool false)
    ∧ lookupPath2 "inputTranslation" "enabled"
        (V039ToV040.migrate modifiedAfterV038) = some (.bool true)
    ∧ lookupPath2 "inputTranslation" "enabled"
        (V039ToV040.migrate modifiedAfterV038)
      ≠ lookupPath2 "inputTranslation" "enabled" modifiedAfterV038 :=
  ⟨rfl, rfl, rfl, by
    intro heq
    have h1 : JsonValue.bool true = JsonValue.bool false :=
      Option.some.inj heq
    injection h1 with h2
    exact Bool.noConfusion h2⟩

/-- C4 amended: no step adds a single field to a section introduced earlier —
v030-to-v031 introduces both `contextMenu` fields at once, and v039-to-v040
overwrites `inputTranslation` wholesale.  Applied after any earlier step,
v039-to-v040 leaves `contextMenu` (with any modification) untouched and sets
`inputTranslation` to the constant four defaults. -/
theorem claim4_amended (d : Doc) :
    lookupKey "contextMenu" (V039ToV040.migrate d)
      = lookupKey "contextMenu" d
    ∧ lookupKey "inputTranslation" (V039ToV040.migrate d)
      = some V039ToV040.inputTranslationDefault
    ∧ lookupPath2 "contextMenu" "translateEnabled" (V030ToV031.migrate d)
      = some (.bool true)
    ∧ lookupPath2 "contextMenu" "readEnabled" (V030ToV031.migrate d)
      = some (.bool false) :=
  ⟨lookupKey_setKey_ne d "contextMenu" "inputTranslation"
      V039ToV040.inputTranslationDefault (by decide),
   lookupKey_setKey_self d "inputTranslation"
      V039ToV040.inputTranslationDefault,
   (lookupPath2_setKey_self d "contextMenu" "translateEnabled" _).trans rfl,
   (lookupPath2_setKey_self d "contextMenu" "readEnabled" _).trans rfl⟩

/-- C5: at the heap level, every step's transform allocates and returns a new
object and writes nothing through its input — after the call the input
document's heap cell is unchanged, and the result (at a fresh address) is the
pure `migrate` of the input's fields. -/
theorem claim5_no_mutation (h : Heap) (a : Nat) (ha : a < h.length) :
    ((V030ToV031.migrateOnHeap h a).1[a]? = h[a]?
      ∧ (V030ToV031.migrateOnHeap h a).2 ≠ a
      ∧ (V030ToV031.migrateOnHeap h a).1[(V030ToV031.migrateOnHeap h a).2]?
          = some (V030ToV031.migrate (h.getD a [])))
    ∧ ((V038ToV039.migrateOnHeap h a).1[a]? = h[a]?
      ∧ (V038ToV039.migrateOnHeap h a).2 ≠ a
      ∧ (V038ToV039.migrateOnHeap h a).1[(V038ToV039.migrateOnHeap h a).2]?
          = some (V038ToV039.migrate (h.getD a [])))
    ∧ ((V039ToV040.migrateOnHeap h a).1[a]? = h[a]?
      ∧ (V039ToV040.migrateOnHeap h a).2 ≠ a
      ∧ (V039ToV040.migrateOnHeap h a).1[(V039ToV040.migrateOnHeap h a).2]?
          = some (V039ToV040.migrate (h.getD a []))) :=
  ⟨spreadSetOnHeap_fresh h a "contextMenu" V030ToV031.contextMenuDefault ha,
   spreadSetOnHeap_fresh h a "inputTranslation"
     V038ToV039.inputTranslationDefault ha,
   spreadSetOnHeap_fresh h a "inputTranslation"
     V039ToV040.inputTranslationDefault ha⟩

/-- Witness for C5 on a one-object heap. -/
theorem claim5_no_mutation_witness :
    (0 : Nat) < ([[("tts", JsonValue.null)]] : Heap).length
    ∧ (V030ToV031.migrateOnHeap [[("tts", JsonValue.null)]] 0).1[0]?
        = ([[("tts", JsonValue.null)]] : Heap)[0]? :=
  ⟨by decide,
   (claim5_no_mutation [[("tts", JsonValue.null)]] 0 (by decide)).1.1⟩

/-- C6: every concrete step's transform is total — on every document it
terminates with a successful result; the runner's `MigrationStepFailed`
branch is unreachable for these steps. -/
theorem claim6_steps_total (s : MigrationStep) (hs : s ∈ concreteSteps)
    (d : Doc) : ∃ next, s.transform d = Except.ok next := by
  simp only [concreteSteps, List.mem_cons, List.not_mem_nil, or_false] at hs
  rcases hs with h | h | h <;> subst h <;> exact ⟨_, rfl⟩

/-- Witness for C6 at the v030 step and the empty document. -/
theorem claim6_steps_total_witness :
    v030Step ∈ concreteSteps
    ∧ ∃ next, v030Step.transform [] = Except.ok next :=
  ⟨by simp [concreteSteps],
   claim6_steps_total v030Step (by simp [concreteSteps]) []⟩

/-- C7: each step is deterministic — with the ambient state (clock,
environment, network, globals) made explicit, the transform's result does not
depend on it, and equals the pure `migrate` on every run. -/
theorem claim7_steps_deterministic (e₁ e₂ : Env) (d : Doc) :
    V030ToV031.migrateInEnv e₁ d = V030ToV031.migrateInEnv e₂ d
    ∧ V030ToV031.migrateInEnv e₁ d = V030ToV031.migrate d
    ∧ V038ToV039.migrateInEnv e₁ d = V038ToV039.migrateInEnv e₂ d
    ∧ V038ToV039.migrateInEnv e₁ d = V038ToV039.migrate d
    ∧ V039ToV040.migrateInEnv e₁ d = V039ToV040.migrateInEnv e₂ d
    ∧ V039ToV040.migrateInEnv e₁ d = V039ToV040.migrate d :=
  ⟨rfl, rfl, rfl, rfl, rfl, rfl⟩

/-- C8: for every registry, validator, raw document and stored version
strictly above the registry's latest version, the runner fails immediately
with `FutureVersionDetected`, applies no step, and leaves the store exactly
as it was. -/
theorem claim8_future_version (registry : List MigrationStep)
    (validate : Doc → Bool) (raw : Doc) (v : Nat)
    (hv : latestVersion registry < v) :
    MigrationRunner.run registry validate (raw, v)
      = (Except.error
          (MigrationError.FutureVersionDetected v (latestVersion registry)),
         (raw, v)) := by
  simp [MigrationRunner.run, hv]

/-- Witness for C8: version 9999 against the concrete steps (latest 40). -/
theorem claim8_future_version_witness :
    latestVersion concreteSteps < 9999
    ∧ MigrationRunner.run concreteSteps (fun _ => true) ([], 9999)
      = (Except.error
          (MigrationError.FutureVersionDetected 9999
            (latestVersion concreteSteps)),
         ([], 9999)) :=
  ⟨by decide,
   claim8_future_version concreteSteps (fun _ => true) [] 9999 (by decide)⟩

/-- C9: the v038-to-v039 and v039-to-v040 transforms are extensionally equal,
and running v039-to-v040 after v038-to-v039 gives exactly the result of
v038-to-v039 alone. -/
theorem claim9_v039_step_redundant (d : Doc) :
    V038ToV039.migrate d = V039ToV040.migrate d
    ∧ V039ToV040.migrate (V038ToV039.migrate d) = V038ToV039.migrate d :=
  ⟨rfl,
   setKey_setKey_same d "inputTranslation"
     V038ToV039.inputTranslationDefault V039ToV040.inputTranslationDefault⟩

/-- C10: each step overwrites its section wholesale — on every document `d`
already containing a `contextMenu` key with any content, v030-to-v031
replaces it by the constant defaults, and on every document `e` already
containing an `inputTranslation` key with any content, v039-to-v040 replaces
it by the constant defaults; the two parts quantify over separate documents,
so each only assumes the key its own step rewrites. -/
theorem claim10_wholesale_overwrite (d e : Doc) (v w : JsonValue)
    (hc : lookupKey "contextMenu" d = some v)
    (hi : lookupKey "inputTranslation" e = some w) :
    lookupKey "contextMenu" (V030ToV031.migrate d)
      = some V030ToV031.contextMenuDefault
    ∧ lookupKey "inputTranslation" (V039ToV040.migrate e)
      = some V039ToV040.inputTranslationDefault :=
  ⟨lookupKey_setKey_self d "contextMenu" V030ToV031.contextMenuDefault,
   lookupKey_setKey_self e "inputTranslation"
     V039ToV040.inputTranslationDefault⟩

/-- Witness for C10: a v030-era document holding only junk `contextMenu`
content (and no `inputTranslation`), and a separate document holding only
junk `inputTranslation` content. -/
theorem claim10_wholesale_overwrite_witness :
    lookupKey "contextMenu"
        (V030ToV031.migrate [("contextMenu", JsonValue.str "junk")])
      = some V030ToV031.contextMenuDefault
    ∧ lookupKey "inputTranslation"
        (V039ToV040.migrate [("inputTranslation", JsonValue.num 7)])
      = some V039ToV040.inputTranslationDefault :=
  claim10_wholesale_overwrite
    [("contextMenu", JsonValue.str "junk")]
    [("inputTranslation", JsonValue.num 7)]
    (JsonValue.str "junk") (JsonValue.num 7) rfl rfl
